import Mathlib

/-!
# Redis alert sink (`services/redis`)

A shallow embedding of `services/redis/config.go` and `services/redis/service.go`.

* Go's `error` is `Option String` (`none` is `nil`, `some m` an error whose text is `m`).
* The `*redis.Client` held in `Service.cli` is a record with an identity, the options it
  was created with and a closed flag.
* Every effect that leaves the `Service` (mutex operations, client operations, calls on the
  `Diagnostic`) is appended to an event trace, so that the order of effects inside one call
  can be stated.
-/

namespace Redis

/-- Go `error`: `none` is `nil`, `some m` is an error whose message is `m`. -/
abbrev GoError := Option String

/-! ## config.go -/

/-- Go `type Config struct`. -/
structure Config where
  Enabled : Bool
  Addr : String
  Password : String
  Queue : String
  DB : Int
deriving DecidableEq, Repr

/-- Go `func NewConfig() Config`: the fields not listed keep their zero value. -/
def NewConfig : Config :=
  { Enabled := false, Addr := "", Password := "", Queue := "_default_alert_queue_", DB := 0 }

/-- Go `func (c Config) Validate() error`. The receiver is passed by value. -/
def Config.Validate (c : Config) : GoError :=
  if c.Enabled && c.Addr == "" then some "must specify the redis address" else none

/-! ## The collaborators of service.go -/

/-- Go `redis.Options`, restricted to the three fields the service sets. -/
structure Options where
  Addr : String
  DB : Int
  Password : String
deriving DecidableEq, Repr

/-- Modelled from the spec: the connection handle `redis.Client` comes from the go-redis
library, which is not part of the sources. It is "an opaque resource representing a live
network session to the external queue server, parameterized by address/credentials/db_index"
that can be closed. `id` is the identity of the heap object behind the pointer. -/
structure Client where
  id : Nat
  opt : Options
  closed : Bool
deriving DecidableEq, Repr

/-- The part of go-redis `Options.init`, run by `redis.NewClient` on the options it is given,
that touches a field the service sets: an empty address stands for "localhost:6379". -/
def Options.init (o : Options) : Options :=
  if o.Addr = "" then { o with Addr := "localhost:6379" } else o

/-- The client `redis.NewClient(&o)` returns, as the heap object `id`: open, with the options
after `init`. -/
def NewClient (id : Nat) (o : Options) : Client :=
  { id := id, opt := o.init, closed := false }

/-- The answer of the external queue server to a push issued through an open handle with the
given options: `none` when the push is accepted, `some cause` when it fails. -/
abbrev Transport := Options → String → List UInt8 → GoError

/-- Modelled from the spec: `redis.Client.Close` of go-redis. "closing an already-closed handle
must not panic or deadlock"; the value it returns is dropped by both callers. -/
def Client.Close (c : Client) : Client :=
  { c with closed := true }

/-- The cause go-redis reports for a command on a closed client. -/
def errClosed : String := "redis: client is closed"

/-- Modelled from the spec: `redis.Client.LPush(queue, msg).Result()` of go-redis, keeping the
error only. A push "fails ... if the handle is absent/closed ... or if the underlying push
fails". -/
def Client.LPush (T : Transport) (c : Client) (queue : String) (msg : List UInt8) : GoError :=
  if c.closed then some errClosed else T c.opt queue msg

/-- A context of the `Diagnostic` interface: the key/value pairs given to `WithContext`. -/
abbrev DiagCtx := List (String × String)

/-- The effects of the service on its collaborators, in the order they happen. -/
inductive Event where
  | lock
  | unlock
  | rlock
  | runlock
  | newClient (id : Nat) (opt : Options)
  | closeClient (id : Nat)
  | lpush (id : Nat) (queue : String) (msg : List UInt8)
  | diagError (ctx : DiagCtx) (msg : String) (err : String)
deriving DecidableEq, Repr

/-! ## service.go -/

/-- Go `type Service struct`: `mu` is followed through the trace, `logger` is never set. -/
structure Service where
  config : Config
  cli : Client
  diag : DiagCtx
deriving DecidableEq, Repr

/-- The service together with what surrounds it: the next unused client identity and the
trace of effects so far. -/
structure World where
  svc : Service
  fresh : Nat
  trace : List Event
deriving DecidableEq, Repr

/-- Append one effect to the trace. -/
def World.emit (w : World) (e : Event) : World :=
  { w with trace := w.trace ++ [e] }

/-- The effects that happened between the world `w` and the later world `w2`. -/
def since (w w2 : World) : List Event :=
  w2.trace.drop w.trace.length

/-- Go `s.cli.Close()`. -/
def World.closeCli (w : World) : World :=
  { w with svc := { w.svc with cli := w.svc.cli.Close },
           trace := w.trace ++ [Event.closeClient w.svc.cli.id] }

/-- Go `s.cli = redis.NewClient(&redis.Options{...})`. -/
def World.newCli (w : World) (o : Options) : World :=
  { svc := { w.svc with cli := NewClient w.fresh o },
    fresh := w.fresh + 1,
    trace := w.trace ++ [Event.newClient w.fresh o] }

/-- Go `s.config = c`. -/
def World.setConfig (w : World) (c : Config) : World :=
  { w with svc := { w.svc with config := c } }

/-- Go `func NewService(c Config, d Diagnostic) *Service`. -/
def NewService (c : Config) (d : DiagCtx) : World :=
  { svc := { config := c,
             cli := NewClient 0 { Addr := c.Addr, DB := c.DB, Password := c.Password },
             diag := d },
    fresh := 1,
    trace := [Event.newClient 0 { Addr := c.Addr, DB := c.DB, Password := c.Password }] }

/-- Go `func (s *Service) Open() error`. -/
def Open (w : World) : GoError × World :=
  (none, w)

/-- Go `func (s *Service) Close() error`. -/
def Close (w : World) : GoError × World :=
  (none, w.closeCli)

/-- An `interface{}` element of the argument of `Update`: a `Config` value, or a value of
another dynamic type, of which only the name printed by `%T` matters. -/
inductive ConfigIface where
  | config (c : Config)
  | other (typeName : String)
deriving DecidableEq, Repr

/-- Go `func (s *Service) Update(newConfig []interface{}) error`. The deferred `Unlock` runs on
every return. -/
def Update (newConfig : List ConfigIface) (w : World) : GoError × World :=
  let w1 := w.emit Event.lock
  if h : newConfig.length ≠ 1 then
    (some ("expected only one new config object, got " ++ toString newConfig.length),
      w1.emit Event.unlock)
  else
    match newConfig.get ⟨0, by omega⟩ with
    | ConfigIface.other t =>
      (some ("expected config object to be of type redis.Config, got " ++ t),
        w1.emit Event.unlock)
    | ConfigIface.config c =>
      match c.Validate with
      | some err => (some err, w1.emit Event.unlock)
      | none =>
        let w2 := w1.closeCli
        let w3 := if c.Enabled then
            w2.newCli { Addr := c.Addr, DB := c.DB, Password := c.Password }
          else w2
        let w4 := w3.setConfig c
        (none, w4.emit Event.unlock)

/-- Go `func (s *Service) SendMessageToQueue(queue string, msg []byte) error`. -/
def SendMessageToQueue (T : Transport) (queue : String) (msg : List UInt8) (w : World) :
    GoError × World :=
  let w1 := w.emit (Event.lpush w.svc.cli.id queue msg)
  match w.svc.cli.LPush T queue msg with
  | some err => (some ("can't send to redis queue: " ++ err), w1)
  | none => (none, w1)

/-- Go `func (s *Service) Alert(queue string, event *alert.Event) error`. The event type `Ev`
and `json.Marshal` on it (`M`) are collaborators. -/
def Alert {Ev : Type} (M : Ev → Except String (List UInt8)) (T : Transport) (queue : String)
    (event : Ev) (w : World) : GoError × World :=
  let w1 := w.emit Event.rlock
  match M event with
  | Except.error err => (some ("can't marshal event to json: " ++ err), w1.emit Event.runlock)
  | Except.ok msg =>
    let r := SendMessageToQueue T queue msg w1
    (r.1, r.2.emit Event.runlock)

/-- Go `type HandlerConfig struct`. -/
structure HandlerConfig where
  Queue : String
deriving DecidableEq, Repr

/-- Go `type handler struct`: `s` is the service of the world the handler is used in, `logger`
is never set. -/
structure handler where
  queue : String
  diag : DiagCtx
deriving DecidableEq, Repr

/-- Go `func (s *Service) Handler(c HandlerConfig, ctx ...keyvalue.T) (alert.Handler, error)`. -/
def Handler (c : HandlerConfig) (ctx : DiagCtx) (w : World) : handler × GoError :=
  ({ queue := c.Queue, diag := w.svc.diag ++ ctx }, none)

/-- Go `type testOptions struct`. -/
structure testOptions where
  Queue : String
  Message : String
deriving DecidableEq, Repr

/-- The `interface{}` argument of `Test`: a `*testOptions`, or a value of another dynamic type,
of which only the rendering by the verb `%t` matters. -/
inductive OptionsIface where
  | testOptions (o : testOptions)
  | other (rendered : String)
deriving DecidableEq, Repr

/-- Go `[]byte(s)`. -/
def bytesOf (s : String) : List UInt8 :=
  s.toUTF8.data.toList

/-- Go `func (s *Service) TestOptions() interface{}`. -/
def TestOptions : OptionsIface :=
  OptionsIface.testOptions { Queue := "_test_queue_", Message := "test redis message" }

/-- Go `func (s *Service) Test(options interface{}) error`. -/
def Test (T : Transport) (options : OptionsIface) (w : World) : GoError × World :=
  match options with
  | OptionsIface.other r => (some ("unexpected options type " ++ r), w)
  | OptionsIface.testOptions o => SendMessageToQueue T o.Queue (bytesOf o.Message) w

/-- Go `func (h *handler) Handle(event alert.Event)`: it has no result. -/
def Handle {Ev : Type} (M : Ev → Except String (List UInt8)) (T : Transport) (h : handler)
    (event : Ev) (w : World) : World :=
  match Alert M T h.queue event w with
  | (some err, w1) => w1.emit (Event.diagError h.diag "E! failed to handle event" err)
  | (none, w1) => w1

/-! ## Reading a trace -/

/-- The state of the `sync.RWMutex` of one service. -/
inductive Mode where
  | free
  | shared
  | exclusive
deriving DecidableEq, Repr

/-- The mutex after one more effect. -/
def Mode.step (m : Mode) : Event → Mode
  | Event.lock => Mode.exclusive
  | Event.rlock => Mode.shared
  | Event.unlock => Mode.free
  | Event.runlock => Mode.free
  | _ => m

/-- Whether every push of the trace happens with the mutex held (shared or exclusive) and
every close and every replacement of the client with the mutex held exclusively, starting
with the mutex in mode `m`. -/
def guarded (m : Mode) : List Event → Bool
  | [] => true
  | e :: es =>
    (match e with
      | Event.lpush _ _ _ => decide (m ≠ Mode.free)
      | Event.closeClient _ => decide (m = Mode.exclusive)
      | Event.newClient _ _ => decide (m = Mode.exclusive)
      | _ => true) && guarded (m.step e) es

/-- The records given to `Diagnostic.Error`, in order. -/
def diagRecords : List Event → List (DiagCtx × String × String)
  | [] => []
  | Event.diagError ctx msg err :: es => (ctx, msg, err) :: diagRecords es
  | _ :: es => diagRecords es

/-- The pushes issued on clients, in order. -/
def pushes : List Event → List (Nat × String × List UInt8)
  | [] => []
  | Event.lpush id q m :: es => (id, q, m) :: pushes es
  | _ :: es => pushes es

/-! ## Concrete scenarios -/

/-- A server that accepts every push. -/
def acceptAll : Transport :=
  fun _ _ _ => none

/-- A `json.Marshal` that succeeds on every event, the events being their own wire form. -/
def marshalBytes : List UInt8 → Except String (List UInt8) :=
  fun e => Except.ok e

/-- A service built by `NewService` from a configuration with `enabled = false` and an address
set. -/
def disabledAtStart : World :=
  NewService { NewConfig with Addr := "127.0.0.1:6379" } []

/-- A service built by `NewService` from an enabled configuration. -/
def enabledAtStart : World :=
  NewService { NewConfig with Enabled := true, Addr := "127.0.0.1:6379" } []

/-! ## Helper lemmas -/

theorem since_emit (w : World) (e : Event) : since w (w.emit e) = [e] := by
  simp [since, World.emit]

theorem since_append (w w2 : World) (es : List Event) (h : w2.trace = w.trace ++ es) :
    since w w2 = es := by
  simp [since, h]

theorem Validate_eq_none_iff (c : Config) :
    c.Validate = none ↔ ¬ (c.Enabled = true ∧ c.Addr = "") := by
  unfold Config.Validate
  by_cases h : (c.Enabled && c.Addr == "") = true
  · simp only [h, if_true]
    simp only [Bool.and_eq_true, beq_iff_eq] at h
    simp [h]
  · simp only [h]
    simp only [Bool.and_eq_true, beq_iff_eq] at h
    simp [h]

theorem Update_invalid (w : World) (c : Config) (e : String) (h : c.Validate = some e) :
    Update [ConfigIface.config c] w = (some e, (w.emit Event.lock).emit Event.unlock) := by
  simp [Update, h]

theorem Update_valid (w : World) (c : Config) (h : c.Validate = none) :
    Update [ConfigIface.config c] w =
      (none, (((if c.Enabled then
          (w.emit Event.lock).closeCli.newCli
            { Addr := c.Addr, DB := c.DB, Password := c.Password }
        else (w.emit Event.lock).closeCli).setConfig c).emit Event.unlock)) := by
  simp [Update, h]

/-! ## Claims -/

/-- C1: `Validate` returns an error exactly when `Enabled` is true and `Addr` is the empty
string, the error being "must specify the redis address"; with `Enabled` false it succeeds
whatever the address, password, queue and database index. `Validate` is a function of the
copy of `c` it receives and yields only the error, so `c` is not modified. -/
theorem Validate_error_iff (c : Config) :
    (c.Validate ≠ none ↔ (c.Enabled = true ∧ c.Addr = "")) ∧
    (c.Validate = some "must specify the redis address" ∨ c.Validate = none) ∧
    (∀ addr password queue db,
      Config.Validate { Enabled := false, Addr := addr, Password := password,
                        Queue := queue, DB := db } = none) := by
  refine ⟨?_, ?_, ?_⟩
  · rw [Ne, Validate_eq_none_iff, not_not]
  · unfold Config.Validate
    split <;> simp
  · intro addr password queue db
    simp [Config.Validate]

/-- C2: when `c` fails `Validate` (enabled with an empty address), `Update [c]` returns the
validation error, and the stored configuration, the client (identity, options, open or closed)
and the allocator are what they were; the only effects are taking and releasing the mutex. -/
theorem Update_invalid_keeps_state (w : World) (c : Config)
    (h : c.Enabled = true ∧ c.Addr = "") :
    (Update [ConfigIface.config c] w).1 = c.Validate ∧
    (Update [ConfigIface.config c] w).1 = some "must specify the redis address" ∧
    (Update [ConfigIface.config c] w).2.svc = w.svc ∧
    (Update [ConfigIface.config c] w).2.fresh = w.fresh ∧
    since w (Update [ConfigIface.config c] w).2 = [Event.lock, Event.unlock] := by
  have hv : c.Validate = some "must specify the redis address" := by
    simp [Config.Validate, h.1, h.2]
  rw [Update_invalid w c _ hv, hv]
  refine ⟨rfl, rfl, rfl, rfl, ?_⟩
  apply since_append
  simp [World.emit]

theorem Update_invalid_keeps_state_witness :
    (Update [ConfigIface.config { NewConfig with Enabled := true }]
        (NewService { NewConfig with Enabled := true, Addr := "127.0.0.1:6379" } [])).2.svc =
      (NewService { NewConfig with Enabled := true, Addr := "127.0.0.1:6379" } []).svc :=
  (Update_invalid_keeps_state
    (NewService { NewConfig with Enabled := true, Addr := "127.0.0.1:6379" } [])
    { NewConfig with Enabled := true } ⟨rfl, rfl⟩).2.2.1

/-- C8: when the list given to `Update` does not hold exactly one element, `Update` returns the
error "expected only one new config object, got n", n being the length, and the stored
configuration, the client and the allocator are what they were; the only effects are taking
and releasing the mutex. -/
theorem Update_wrong_count (w : World) (l : List ConfigIface) (h : l.length ≠ 1) :
    (Update l w).1 = some ("expected only one new config object, got " ++ toString l.length) ∧
    (Update l w).2.svc = w.svc ∧
    (Update l w).2.fresh = w.fresh ∧
    since w (Update l w).2 = [Event.lock, Event.unlock] := by
  have hu : Update l w =
      (some ("expected only one new config object, got " ++ toString l.length),
        (w.emit Event.lock).emit Event.unlock) := by
    simp [Update, h]
  rw [hu]
  refine ⟨rfl, rfl, rfl, ?_⟩
  apply since_append
  simp [World.emit]

theorem Update_wrong_count_witness :
    (Update [] (NewService NewConfig [])).1 =
        some "expected only one new config object, got 0" ∧
    (Update [ConfigIface.config NewConfig, ConfigIface.config NewConfig]
        (NewService NewConfig [])).1 =
        some "expected only one new config object, got 2" :=
  ⟨(Update_wrong_count (NewService NewConfig []) [] (by decide)).1,
   (Update_wrong_count (NewService NewConfig [])
      [ConfigIface.config NewConfig, ConfigIface.config NewConfig] (by decide)).1⟩

/-- C3: for a configuration `c` that passes `Validate`, `Update [c]` returns no error, closes
the client held before the call whatever the stored configuration was, and stores `c`. When
`c.Enabled` is true the service then holds a client created in this call (the next unused
identity, hence another one than the old client whenever the old identity is in use), open,
with the address, database index and password of `c`. When `c.Enabled` is false the service
keeps the old client, now closed, and no client is created. -/
theorem Update_valid_applies (w : World) (c : Config) (h : c.Validate = none) :
    (Update [ConfigIface.config c] w).1 = none ∧
    (Update [ConfigIface.config c] w).2.svc.config = c ∧
    (Update [ConfigIface.config c] w).2.svc.diag = w.svc.diag ∧
    Event.closeClient w.svc.cli.id ∈ since w (Update [ConfigIface.config c] w).2 ∧
    (c.Enabled = true →
      (Update [ConfigIface.config c] w).2.svc.cli =
        { id := w.fresh, opt := { Addr := c.Addr, DB := c.DB, Password := c.Password },
          closed := false } ∧
      (w.svc.cli.id < w.fresh → (Update [ConfigIface.config c] w).2.svc.cli.id ≠ w.svc.cli.id) ∧
      since w (Update [ConfigIface.config c] w).2 =
        [Event.lock, Event.closeClient w.svc.cli.id,
         Event.newClient w.fresh { Addr := c.Addr, DB := c.DB, Password := c.Password },
         Event.unlock]) ∧
    (c.Enabled = false →
      (Update [ConfigIface.config c] w).2.svc.cli = { w.svc.cli with closed := true } ∧
      since w (Update [ConfigIface.config c] w).2 =
        [Event.lock, Event.closeClient w.svc.cli.id, Event.unlock]) := by
  rw [Update_valid w c h]
  cases he : c.Enabled
  · refine ⟨rfl, rfl, rfl, ?_, ?_, ?_⟩
    · simp [since, World.emit, World.closeCli, World.setConfig]
    · intro hf
      cases hf
    · intro _
      refine ⟨rfl, ?_⟩
      simp [since, World.emit, World.closeCli, World.setConfig]
  · have ha : c.Addr ≠ "" := fun h0 => (Validate_eq_none_iff c).1 h ⟨he, h0⟩
    have hn : NewClient w.fresh { Addr := c.Addr, DB := c.DB, Password := c.Password } =
        { id := w.fresh, opt := { Addr := c.Addr, DB := c.DB, Password := c.Password },
          closed := false } := by
      simp [NewClient, Options.init, ha]
    refine ⟨rfl, rfl, rfl, ?_, ?_, ?_⟩
    · simp [since, World.emit, World.closeCli, World.setConfig, World.newCli]
    · intro _
      refine ⟨?_, ?_, ?_⟩
      · simp only [if_true, World.emit, World.closeCli, World.setConfig, World.newCli]
        exact hn
      · intro hlt
        simp only [if_true, World.emit, World.closeCli, World.setConfig, World.newCli, hn,
          Client.Close]
        omega
      · simp [since, World.emit, World.closeCli, World.setConfig, World.newCli]
    · intro hf
      cases hf

theorem Update_valid_applies_witness :
    (Update [ConfigIface.config { NewConfig with Enabled := true, Addr := "10.0.0.2:6379" }]
        (NewService NewConfig [])).2.svc.config =
      { NewConfig with Enabled := true, Addr := "10.0.0.2:6379" } :=
  (Update_valid_applies (NewService NewConfig [])
    { NewConfig with Enabled := true, Addr := "10.0.0.2:6379" } (by decide)).2.1

/-- C4: after `Update [c]` with `c.Enabled` false, which succeeds, the client of the service is
closed, and `SendMessageToQueue` with any queue and payload returns an error, whatever the
server would answer: the text "can't send to redis queue: " followed by the cause reported by
the closed client. -/
theorem Send_after_disable_fails (T : Transport) (w : World) (c : Config) (queue : String)
    (payload : List UInt8) (h : c.Enabled = false) :
    (Update [ConfigIface.config c] w).1 = none ∧
    (Update [ConfigIface.config c] w).2.svc.cli.closed = true ∧
    (Update [ConfigIface.config c] w).2.svc.cli.LPush T queue payload = some errClosed ∧
    (SendMessageToQueue T queue payload (Update [ConfigIface.config c] w).2).1 =
      some ("can't send to redis queue: " ++ errClosed) := by
  have hv : c.Validate = none := by simp [Config.Validate, h]
  rw [Update_valid w c hv]
  simp [h, SendMessageToQueue, Client.LPush, World.emit, World.closeCli, World.setConfig,
    Client.Close]

theorem Send_after_disable_fails_witness :
    (SendMessageToQueue (fun _ _ _ => none) "alerts" [1, 2]
      (Update [ConfigIface.config NewConfig]
        (NewService { NewConfig with Enabled := true, Addr := "10.0.0.2:6379" } [])).2).1 =
      some ("can't send to redis queue: " ++ errClosed) :=
  (Send_after_disable_fails (fun _ _ _ => none)
    (NewService { NewConfig with Enabled := true, Addr := "10.0.0.2:6379" } [])
    NewConfig "alerts" [1, 2] rfl).2.2.2

/-- C10: `Close` returns no error in every state, leaves the client of the service closed (the
same client, with the same options) and the stored configuration unchanged, and a second
`Close` again returns no error and leaves the service as the first one did; the same holds
for a `Close` after an `Update` that disabled the service. -/
theorem Close_idempotent (w : World) :
    (Close w).1 = none ∧
    (Close w).2.svc.cli = { w.svc.cli with closed := true } ∧
    (Close w).2.svc.config = w.svc.config ∧
    (Close w).2.svc.diag = w.svc.diag ∧
    (Close (Close w).2).1 = none ∧
    (Close (Close w).2).2.svc = (Close w).2.svc ∧
    (∀ c : Config,
      (Close (Update [ConfigIface.config { c with Enabled := false }] w).2).1 = none ∧
      (Close (Update [ConfigIface.config { c with Enabled := false }] w).2).2.svc =
        (Update [ConfigIface.config { c with Enabled := false }] w).2.svc) := by
  refine ⟨rfl, rfl, rfl, rfl, rfl, rfl, ?_⟩
  intro c
  rw [Update_valid w _ (by simp [Config.Validate])]
  exact ⟨rfl, rfl⟩

/-- C9: `TestOptions` is the probe with queue "_test_queue_" and message "test redis message",
and in every state `Test` on it issues exactly one push, of the bytes of "test redis message"
onto "_test_queue_" through the client the service holds, and nothing else. It returns no
error exactly when that push does, and otherwise the text "can't send to redis queue: "
followed by the cause of the push; on an open client the push is the answer of the server.
The service itself is left as it was. The bytes pushed are 116 101 115 116 32 114 101 100 105
115 32 109 101 115 115 97 103 101, the eighteen characters of the message in ASCII. -/
theorem Test_defaults_pushes_once (T : Transport) (w : World) :
    TestOptions = OptionsIface.testOptions
      { Queue := "_test_queue_", Message := "test redis message" } ∧
    since w (Test T TestOptions w).2 =
      [Event.lpush w.svc.cli.id "_test_queue_" (bytesOf "test redis message")] ∧
    (Test T TestOptions w).2.svc = w.svc ∧
    (Test T TestOptions w).1 =
      (w.svc.cli.LPush T "_test_queue_" (bytesOf "test redis message")).map
        (fun cause => "can't send to redis queue: " ++ cause) ∧
    w.svc.cli.LPush T "_test_queue_" (bytesOf "test redis message") =
      (if w.svc.cli.closed then some errClosed
       else T w.svc.cli.opt "_test_queue_" (bytesOf "test redis message")) ∧
    bytesOf "test redis message" =
      [116, 101, 115, 116, 32, 114, 101, 100, 105, 115, 32, 109, 101, 115, 115, 97, 103, 101] ∧
    pushes (since w (Test T TestOptions w).2) =
      [(w.svc.cli.id, "_test_queue_",
        [116, 101, 115, 116, 32, 114, 101, 100, 105, 115, 32, 109, 101, 115, 115, 97, 103,
         101])] ∧
    (Test T TestOptions w).1 =
      (if w.svc.cli.closed then some ("can't send to redis queue: " ++ errClosed)
       else (T w.svc.cli.opt "_test_queue_"
          [116, 101, 115, 116, 32, 114, 101, 100, 105, 115, 32, 109, 101, 115, 115, 97, 103,
           101]).map (fun cause => "can't send to redis queue: " ++ cause)) := by
  have hb : bytesOf "test redis message" =
      [116, 101, 115, 116, 32, 114, 101, 100, 105, 115, 32, 109, 101, 115, 115, 97, 103,
       101] := by
    decide
  have ht : since w (Test T TestOptions w).2 =
      [Event.lpush w.svc.cli.id "_test_queue_" (bytesOf "test redis message")] := by
    simp only [Test, TestOptions, SendMessageToQueue]
    split <;> exact since_emit _ _
  have hr : (Test T TestOptions w).1 =
      (w.svc.cli.LPush T "_test_queue_" (bytesOf "test redis message")).map
        (fun cause => "can't send to redis queue: " ++ cause) := by
    simp only [Test, TestOptions, SendMessageToQueue]
    split <;> rename_i heq <;> simp [heq]
  refine ⟨rfl, ?_, ?_, ?_, rfl, hb, ?_, ?_⟩
  · exact ht
  · simp only [Test, TestOptions, SendMessageToQueue]
    split <;> rfl
  · exact hr
  · rw [ht, hb]
    rfl
  · rw [hr, hb]
    unfold Client.LPush
    cases w.svc.cli.closed <;> simp

/-! ## The traces of `Alert`, `Update` and `Handle` -/

theorem Alert_marshal_error {Ev : Type} (M : Ev → Except String (List UInt8)) (T : Transport)
    (queue : String) (event : Ev) (w : World) (e : String) (h : M event = Except.error e) :
    Alert M T queue event w =
      (some ("can't marshal event to json: " ++ e),
        { w with trace := w.trace ++ [Event.rlock, Event.runlock] }) := by
  simp [Alert, h, World.emit]

theorem Alert_marshal_ok {Ev : Type} (M : Ev → Except String (List UInt8)) (T : Transport)
    (queue : String) (event : Ev) (w : World) (msg : List UInt8) (h : M event = Except.ok msg) :
    Alert M T queue event w =
      ((w.svc.cli.LPush T queue msg).map (fun cause => "can't send to redis queue: " ++ cause),
        { w with trace := w.trace ++
            [Event.rlock, Event.lpush w.svc.cli.id queue msg, Event.runlock] }) := by
  simp only [Alert, h, SendMessageToQueue, World.emit]
  split <;> rename_i heq <;> simp [heq]

theorem Alert_guarded {Ev : Type} (M : Ev → Except String (List UInt8)) (T : Transport)
    (queue : String) (event : Ev) (w : World) :
    guarded Mode.free (since w (Alert M T queue event w).2) = true := by
  cases h : M event with
  | error e =>
    rw [Alert_marshal_error M T queue event w e h]
    simp [since, guarded, Mode.step]
  | ok msg =>
    rw [Alert_marshal_ok M T queue event w msg h]
    simp [since, guarded, Mode.step]

theorem Update_guarded (l : List ConfigIface) (w : World) :
    guarded Mode.free (since w (Update l w).2) = true := by
  unfold Update
  split
  · simp [since, guarded, Mode.step, World.emit]
  · split
    · simp [since, guarded, Mode.step, World.emit]
    · split
      · simp [since, guarded, Mode.step, World.emit]
      · split <;>
          simp [since, guarded, Mode.step, World.emit, World.closeCli, World.newCli,
            World.setConfig]

/-- C5: `Handle` has no result, so no error reaches its caller. It runs `Alert` with the queue
of the handler on the service: the service and the allocator end as `Alert` leaves them, and
the only push, if the event could be marshalled, goes to the queue of the handler. `Alert`
itself gives nothing to the `Diagnostic`. When `Alert` returns an error (from marshalling or
from the send), `Handle` gives exactly one record to the `Diagnostic` of the handler, with the
message "E! failed to handle event" and that error, after the effects of `Alert`; when `Alert`
returns no error, `Handle` gives no record and adds no effect. -/
theorem Handle_records_failure {Ev : Type} (M : Ev → Except String (List UInt8))
    (T : Transport) (h : handler) (event : Ev) (w : World) :
    (Handle M T h event w).svc = (Alert M T h.queue event w).2.svc ∧
    (Handle M T h event w).fresh = (Alert M T h.queue event w).2.fresh ∧
    since w (Handle M T h event w) =
      since w (Alert M T h.queue event w).2 ++
        (match (Alert M T h.queue event w).1 with
          | some err => [Event.diagError h.diag "E! failed to handle event" err]
          | none => []) ∧
    diagRecords (since w (Alert M T h.queue event w).2) = [] ∧
    diagRecords (since w (Handle M T h event w)) =
      (match (Alert M T h.queue event w).1 with
        | some err => [(h.diag, "E! failed to handle event", err)]
        | none => []) ∧
    pushes (since w (Handle M T h event w)) =
      (match M event with
        | Except.ok msg => [(w.svc.cli.id, h.queue, msg)]
        | Except.error _ => []) ∧
    (Alert M T h.queue event w).1 =
      (match M event with
        | Except.ok msg =>
          (w.svc.cli.LPush T h.queue msg).map
            (fun cause => "can't send to redis queue: " ++ cause)
        | Except.error e => some ("can't marshal event to json: " ++ e)) := by
  cases hm : M event with
  | error e =>
    simp [Handle, Alert_marshal_error M T h.queue event w e hm, since, World.emit,
      diagRecords, pushes]
  | ok msg =>
    rw [Handle, Alert_marshal_ok M T h.queue event w msg hm]
    cases hp : w.svc.cli.LPush T h.queue msg <;>
      simp [hp, since, World.emit, diagRecords, pushes]

/-- Once the client of the service is closed (by `Close` or by a disabling `Update`), every
`Handle` gives exactly one record to the `Diagnostic`, whatever the server and `json.Marshal`
do. -/
theorem Handle_closed_one_record {Ev : Type} (M : Ev → Except String (List UInt8))
    (T : Transport) (h : handler) (event : Ev) (w : World) (hc : w.svc.cli.closed = true) :
    (diagRecords (since w (Handle M T h event w))).length = 1 := by
  cases hm : M event with
  | error e =>
    simp [Handle, Alert_marshal_error M T h.queue event w e hm, since, World.emit, diagRecords]
  | ok msg =>
    rw [Handle, Alert_marshal_ok M T h.queue event w msg hm]
    simp [Client.LPush, hc, since, World.emit, diagRecords]

/-- C6: on a service built by `NewService` from a configuration with `enabled = false`, with a
server that accepts the push, `Handle` gives no record to the `Diagnostic`: `NewService`
opens a client whatever `Enabled` is, so the push goes through. -/
theorem Handle_disabledAtStart_no_record :
    disabledAtStart.svc.config.Enabled = false ∧
    disabledAtStart.svc.cli.closed = false ∧
    (Alert marshalBytes acceptAll "alerts" [1, 2] disabledAtStart).1 = none ∧
    pushes (since disabledAtStart
      (Handle marshalBytes acceptAll (Handler { Queue := "alerts" } [] disabledAtStart).1
        [1, 2] disabledAtStart)) = [(0, "alerts", [1, 2])] ∧
    diagRecords (since disabledAtStart
      (Handle marshalBytes acceptAll (Handler { Queue := "alerts" } [] disabledAtStart).1
        [1, 2] disabledAtStart)) = [] := by
  decide

/-- C7: `Close` closes the client, and `Test` on `TestOptions` pushes through it, with the
mutex of the service not held: neither takes it, and `SendMessageToQueue` does not take it
itself (`Alert` does before calling it, and `Update` does before closing the client). -/
theorem Close_and_Test_without_mutex :
    since enabledAtStart (Close enabledAtStart).2 = [Event.closeClient 0] ∧
    guarded Mode.free (since enabledAtStart (Close enabledAtStart).2) = false ∧
    since enabledAtStart (Test acceptAll TestOptions enabledAtStart).2 =
      [Event.lpush 0 "_test_queue_" (bytesOf "test redis message")] ∧
    guarded Mode.free (since enabledAtStart (Test acceptAll TestOptions enabledAtStart).2) =
      false ∧
    guarded Mode.free
      (since enabledAtStart (SendMessageToQueue acceptAll "alerts" [1, 2] enabledAtStart).2) =
      false := by
  decide

end Redis
